import Mathlib

set_option maxRecDepth 8000

/-!
# Verification of the jira-query-mcp server (`src/index.js`)

A shallow embedding of the MCP server: a JavaScript value model (JSON
values plus `undefined`), the property-access and `||` semantics the
handlers rely on, models of the `JSON.stringify(v, null, 2)` and
`encodeURIComponent` builtins, the proxy selector, the tool registry,
the two fetch handlers and the dispatcher with its catch-all boundary.
The remote tracker is modelled as a function from request URL to fetch
outcome, so every handler is a pure function of the configuration, the
remote world and the invocation arguments.
-/

namespace JiraQueryMcp

/-! ### JavaScript value model -/

/-- A JavaScript value as observed by the handlers: JSON values plus the
distinguished `undefined` produced by absent-property access. -/
inductive JSVal where
  | undefined : JSVal
  | null : JSVal
  | bool : Bool → JSVal
  | num : Int → JSVal
  | str : String → JSVal
  | arr : List JSVal → JSVal
  | obj : List (String × JSVal) → JSVal

/-- JavaScript truthiness: `undefined`, `null`, `false`, `0` and the empty
string are falsy; every other value (including any array or object) is truthy. -/
def jsTruthy : JSVal → Bool
  | .undefined => false
  | .null => false
  | .bool b => b
  | .num n => n != 0
  | .str s => s != ""
  | .arr _ => true
  | .obj _ => true

/-- The single-quote character as a string (used in modelled runtime messages). -/
def sq : String := String.singleton (Char.ofNat 39)

/-- The TypeError message raised by reading a property of `undefined` or `null`. -/
def typeErrorMsg (base k : String) : String :=
  "Cannot read properties of " ++ base ++ " (reading " ++ sq ++ k ++ sq ++ ")"

/-- Plain JS property access `v.k`: a TypeError on `undefined`/`null`, a lookup
defaulting to `undefined` on objects, `undefined` on other primitives. -/
def getField (v : JSVal) (k : String) : Except String JSVal :=
  match v with
  | .undefined => .error (typeErrorMsg "undefined" k)
  | .null => .error (typeErrorMsg "null" k)
  | .obj fields => .ok ((fields.lookup k).getD .undefined)
  | _ => .ok .undefined

/-- Optional-chaining access `v?.k`: `undefined` when `v` is `undefined` or
`null`, otherwise plain access. -/
def getFieldOpt (v : JSVal) (k : String) : Except String JSVal :=
  match v with
  | .undefined => .ok .undefined
  | .null => .ok .undefined
  | w => getField w k

/-- Key lookup in a projected object, for stating properties of projections. -/
def lookupField (v : JSVal) (k : String) : Option JSVal :=
  match v with
  | .obj fields => fields.lookup k
  | _ => none

/-- The JS `a || b` operator. -/
def jsOr (a b : JSVal) : JSVal := if jsTruthy a then a else b

/-- Unguarded `v.map(f)`: a TypeError unless `v` is an array. -/
def jsMapArray (v : JSVal) (f : JSVal → Except String JSVal) : Except String JSVal :=
  match v with
  | .undefined => .error (typeErrorMsg "undefined" "map")
  | .null => .error (typeErrorMsg "null" "map")
  | .arr xs => (xs.mapM f).map JSVal.arr
  | _ => .error "map is not a function"

/-- Guarded `v?.map(f)`: `undefined` when `v` is `undefined`/`null`. -/
def jsOptChainMap (v : JSVal) (f : JSVal → Except String JSVal) : Except String JSVal :=
  match v with
  | .undefined => .ok .undefined
  | .null => .ok .undefined
  | w => jsMapArray w f

/-- Template-literal interpolation of a possibly-undefined string argument. -/
def jsArgString : Option String → String
  | some s => s
  | none => "undefined"

/-! ### Model of `JSON.stringify(v, null, 2)` -/

/-- The left-brace character as a string. -/
def lbrace : String := String.singleton (Char.ofNat 123)

/-- The right-brace character as a string. -/
def rbrace : String := String.singleton (Char.ofNat 125)

/-- The double-quote character as a string. -/
def dquote : String := String.singleton (Char.ofNat 34)

/-- The backslash character as a string. -/
def bslash : String := String.singleton (Char.ofNat 92)

/-- Uppercase hexadecimal digit. -/
def hexDigitUpper (n : Nat) : Char :=
  if n < 10 then Char.ofNat (48 + n) else Char.ofNat (55 + n)

/-- Lowercase hexadecimal digit. -/
def hexDigitLower (n : Nat) : Char :=
  if n < 10 then Char.ofNat (48 + n) else Char.ofNat (87 + n)

/-- Two uppercase hex digits of a byte, as used by percent-encoding. -/
def hexByte (b : Nat) : String := String.mk [hexDigitUpper (b / 16), hexDigitUpper (b % 16)]

/-- JSON string escaping as performed by `JSON.stringify`. -/
def jsonEscapeChar (c : Char) : String :=
  if c = Char.ofNat 34 then bslash ++ dquote
  else if c = Char.ofNat 92 then bslash ++ bslash
  else if c = Char.ofNat 8 then bslash ++ "b"
  else if c = Char.ofNat 9 then bslash ++ "t"
  else if c = Char.ofNat 10 then bslash ++ "n"
  else if c = Char.ofNat 12 then bslash ++ "f"
  else if c = Char.ofNat 13 then bslash ++ "r"
  else if c.toNat < 32 then
    bslash ++ "u00" ++ String.mk [hexDigitLower (c.toNat / 16), hexDigitLower (c.toNat % 16)]
  else String.singleton c

/-- A JSON string literal for `s`. -/
def jsonQuote (s : String) : String :=
  dquote ++ String.join (s.toList.map jsonEscapeChar) ++ dquote

/-- `n` spaces of indentation. -/
def jsonIndent (n : Nat) : String := String.mk (List.replicate n (Char.ofNat 32))

/-- Join pre-rendered items, indenting each and separating by comma-newline. -/
def joinIndented (ind : Nat) : List String → String
  | [] => ""
  | [x] => jsonIndent ind ++ x
  | x :: xs => jsonIndent ind ++ x ++ "," ++ "\n" ++ joinIndented ind xs

mutual

/-- Model of `JSON.stringify(v, null, 2)` at indentation level `ind`:
object entries with `undefined` values are dropped, `undefined` array
elements render as `null`, nesting adds two spaces of indentation. -/
def jsonStringifyVal (ind : Nat) : JSVal → String
  | .undefined => "undefined"
  | .null => "null"
  | .bool b => if b then "true" else "false"
  | .num n => toString n
  | .str s => jsonQuote s
  | .arr xs =>
    match xs with
    | [] => "[]"
    | _ =>
      "[" ++ "\n" ++ joinIndented (ind + 2) (jsonStringifyItems (ind + 2) xs) ++
        "\n" ++ jsonIndent ind ++ "]"
  | .obj fields =>
    match jsonStringifyEntries (ind + 2) fields with
    | [] => lbrace ++ rbrace
    | entries =>
      lbrace ++ "\n" ++ joinIndented (ind + 2) entries ++ "\n" ++ jsonIndent ind ++ rbrace

/-- Rendered array elements (`undefined` renders as `null`). -/
def jsonStringifyItems (ind : Nat) : List JSVal → List String
  | [] => []
  | .undefined :: xs => "null" :: jsonStringifyItems ind xs
  | x :: xs => jsonStringifyVal ind x :: jsonStringifyItems ind xs

/-- Rendered object entries (entries with `undefined` values are dropped). -/
def jsonStringifyEntries (ind : Nat) : List (String × JSVal) → List String
  | [] => []
  | (_, .undefined) :: fs => jsonStringifyEntries ind fs
  | (k, v) :: fs => (jsonQuote k ++ ": " ++ jsonStringifyVal ind v) :: jsonStringifyEntries ind fs

end

/-- Top-level `JSON.stringify(v, null, 2)`. -/
def jsonStringify2 (v : JSVal) : String := jsonStringifyVal 0 v

/-! ### Models of `encodeURIComponent` / `decodeURIComponent` -/

/-- The UTF-8 bytes of a character. -/
def utf8Bytes (c : Char) : List Nat :=
  let n := c.toNat
  if n < 128 then [n]
  else if n < 2048 then [192 + n / 64, 128 + n % 64]
  else if n < 65536 then [224 + n / 4096, 128 + (n / 64) % 64, 128 + n % 64]
  else [240 + n / 262144, 128 + (n / 4096) % 64, 128 + (n / 64) % 64, 128 + n % 64]

/-- The characters `encodeURIComponent` leaves unescaped: ASCII alphanumerics
and the marks `- _ . ! ~ * ' ( )` (codes 45 95 46 33 126 42 39 40 41). -/
def isUriUnreserved (c : Char) : Bool :=
  c.isAlphanum || c == Char.ofNat 45 || c == Char.ofNat 95 || c == Char.ofNat 46 ||
  c == Char.ofNat 33 || c == Char.ofNat 126 || c == Char.ofNat 42 || c == Char.ofNat 39 ||
  c == Char.ofNat 40 || c == Char.ofNat 41

/-- Per-character step of `encodeURIComponent`. -/
def encodeURIComponentChar (c : Char) : String :=
  if isUriUnreserved c then String.singleton c
  else String.join ((utf8Bytes c).map (fun b => "%" ++ hexByte b))

/-- Model of the JS builtin `encodeURIComponent`. -/
def encodeURIComponent (s : String) : String :=
  String.join (s.toList.map encodeURIComponentChar)

/-- Hexadecimal digit value of a character. -/
def hexVal (c : Char) : Option Nat :=
  if 48 ≤ c.toNat ∧ c.toNat ≤ 57 then some (c.toNat - 48)
  else if 65 ≤ c.toNat ∧ c.toNat ≤ 70 then some (c.toNat - 55)
  else if 97 ≤ c.toNat ∧ c.toNat ≤ 102 then some (c.toNat - 87)
  else none

/-- Percent-decoding to a byte sequence; literal characters contribute their
UTF-8 bytes. -/
def percentDecodeBytes : List Char → Option (List Nat)
  | [] => some []
  | c :: rest =>
    if c = Char.ofNat 37 then
      match rest with
      | h1 :: h2 :: rest2 =>
        match hexVal h1, hexVal h2 with
        | some a, some b => (percentDecodeBytes rest2).map (fun bs => (16 * a + b) :: bs)
        | _, _ => none
      | _ => none
    else (percentDecodeBytes rest).map (fun bs => utf8Bytes c ++ bs)

/-- Is `b` a UTF-8 continuation byte? -/
def isUtf8Cont (b : Nat) : Bool := b / 64 == 2

/-- UTF-8 decoding of a byte sequence. -/
def utf8DecodeChars : List Nat → Option (List Char)
  | [] => some []
  | b :: rest =>
    if b < 128 then (utf8DecodeChars rest).map (fun cs => Char.ofNat b :: cs)
    else if b < 192 then none
    else if b < 224 then
      match rest with
      | b2 :: rest2 =>
        if isUtf8Cont b2 then
          (utf8DecodeChars rest2).map (fun cs => Char.ofNat ((b - 192) * 64 + (b2 - 128)) :: cs)
        else none
      | _ => none
    else if b < 240 then
      match rest with
      | b2 :: b3 :: rest3 =>
        if isUtf8Cont b2 && isUtf8Cont b3 then
          (utf8DecodeChars rest3).map
            (fun cs => Char.ofNat ((b - 224) * 4096 + (b2 - 128) * 64 + (b3 - 128)) :: cs)
        else none
      | _ => none
    else if b < 248 then
      match rest with
      | b2 :: b3 :: b4 :: rest4 =>
        if isUtf8Cont b2 && isUtf8Cont b3 && isUtf8Cont b4 then
          (utf8DecodeChars rest4).map
            (fun cs =>
              Char.ofNat ((b - 240) * 262144 + (b2 - 128) * 4096 + (b3 - 128) * 64 + (b4 - 128)) :: cs)
        else none
      | _ => none
    else none

/-- Model of the JS builtin `decodeURIComponent` (`none` models a URIError). -/
def decodeURIComponent (s : String) : Option String :=
  (percentDecodeBytes s.toList).bind
    (fun bs => (utf8DecodeChars bs).map (fun cs => String.mk cs))

/-! ### Proxy selector (`createProxyAgent`, src/index.js lines 21-34) -/

/-- The transport object constructed for a proxy URL: either a
`SocksProxyAgent` or an `HttpsProxyAgent`, each carrying the full URL. -/
inductive ProxyAgent where
  | socksProxyAgent (url : String) : ProxyAgent
  | httpsProxyAgent (url : String) : ProxyAgent
deriving DecidableEq

/-- Longest prefix of characters satisfying `p`. -/
def takeWhileList (p : Char → Bool) : List Char → List Char
  | [] => []
  | c :: cs => if p c then c :: takeWhileList p cs else []

/-- ASCII lowercasing of one character (schemes are ASCII). -/
def charToLower (c : Char) : Char :=
  if 65 ≤ c.toNat ∧ c.toNat ≤ 90 then Char.ofNat (c.toNat + 32) else c

/-- Is the first character list a prefix of the second? -/
def charListIsPrefix : List Char → List Char → Bool
  | [], _ => true
  | _ :: _, [] => false
  | p :: ps, c :: cs => p == c && charListIsPrefix ps cs

/-- Does `s` start with `p`? A model of `String.prototype.startsWith`. -/
def strStartsWith (s p : String) : Bool :=
  charListIsPrefix p.toList s.toList

/-- Model of `new URL(s).protocol` followed by `.toLowerCase()`: the scheme
(text before the first colon) lowercased with its trailing colon; `none` when
the URL constructor would throw because no nonempty colon-terminated scheme
exists. -/
def urlProtocol (s : String) : Option String :=
  let scheme := takeWhileList (fun c => c != Char.ofNat 58) s.toList
  if scheme.length < s.toList.length ∧ scheme ≠ [] then
    some (String.mk (scheme.map charToLower) ++ String.singleton (Char.ofNat 58))
  else none

/-- `createProxyAgent(proxyUrl)`: no transport for an unset or empty URL,
a SOCKS transport for a scheme starting with `socks`, an HTTP transport for
a scheme starting with `http`, otherwise a thrown error naming the protocol
(which aborts startup). A `none` input models an unset environment variable. -/
def createProxyAgent (proxyUrl : Option String) : Except String (Option ProxyAgent) :=
  match proxyUrl with
  | none => .ok none
  | some u =>
    if u = "" then .ok none
    else
      match urlProtocol u with
      | none => .error ("Invalid URL: " ++ u)
      | some protocol =>
        if strStartsWith protocol "socks" then .ok (some (.socksProxyAgent u))
        else if strStartsWith protocol "http" then .ok (some (.httpsProxyAgent u))
        else .error ("Unsupported proxy protocol: " ++ protocol)

/-! ### Configuration, invocation arguments and the remote world -/

/-- `JIRA_CONFIG` (src/index.js lines 39-43). -/
structure JiraConfig where
  host : String
  token : String
  apiVersion : String
deriving DecidableEq

/-- The argument bag of a `callTool` invocation, restricted to the string
parameters the two tools destructure; `none` models an absent argument. -/
structure ToolArgs where
  issueKey : Option String
  projectKey : Option String
  jql : Option String
deriving DecidableEq

/-- An HTTP response as observed through `fetch`: status, status text and
the JSON body delivered by `response.json()`. -/
structure HttpResponse where
  status : Nat
  statusText : String
  body : JSVal

/-- The outcome of one `fetch` call: a network-level failure (a rejected
promise) or a response. -/
inductive FetchOutcome where
  | networkError (msg : String) : FetchOutcome
  | success (response : HttpResponse) : FetchOutcome

/-- The remote tracker, modelled as a map from request URL to fetch outcome. -/
def World : Type := String → FetchOutcome

/-- `response.ok`: status in the range 200-299. -/
def responseOk (r : HttpResponse) : Bool := 200 ≤ r.status ∧ r.status < 300

/-- The message of the error thrown on a non-ok response:
`HTTP (status): (statusText)`. -/
def httpErrorMsg (r : HttpResponse) : String :=
  "HTTP " ++ toString r.status ++ ": " ++ r.statusText

/-! ### Tool registry (`ListToolsRequestSchema` handler, lines 45-82) -/

/-- One property of a tool's input schema. -/
structure ToolProperty where
  name : String
  type : String
  description : String
deriving DecidableEq

/-- A tool's declared input shape. -/
structure ToolInputSchema where
  type : String
  properties : List ToolProperty
  required : List String
deriving DecidableEq

/-- A registered tool: name, human description, input schema. -/
structure ToolDescriptor where
  name : String
  description : String
  inputSchema : ToolInputSchema
deriving DecidableEq

/-- The static tool list returned by the `ListToolsRequestSchema` handler. -/
def listTools : List ToolDescriptor :=
  [⟨"get_jira_issue", "Get a specific Jira issue by key",
    ⟨"object", [⟨"issueKey", "string", "The Jira issue key (e.g., PROJ-123)"⟩],
     ["issueKey"]⟩⟩,
   ⟨"get_jira_issues", "Get all issues and subtasks for a Jira project",
    ⟨"object", [⟨"projectKey", "string", "Project key (e.g., \"PP\")"⟩,
                ⟨"jql", "string", "Optional JQL to filter issues"⟩],
     ["projectKey"]⟩⟩]

/-! ### Envelope -/

/-- One content item of a tool result. -/
structure ContentItem where
  type : String
  text : String
deriving DecidableEq

/-- The uniform tool-result envelope; `isError = none` models an absent
`isError` field. -/
structure Envelope where
  content : List ContentItem
  isError : Option Bool
deriving DecidableEq

/-! ### The `get_jira_issue` projection (lines 111-142) -/

/-- The mapping applied to each attachment:
`(a) => ({filename, author: a.author.displayName, created, size, mimeType, content})`. -/
def projectAttachment (a : JSVal) : Except String JSVal := do
  let filename ← getField a "filename"
  let author ← getField a "author"
  let authorName ← getField author "displayName"
  let created ← getField a "created"
  let size ← getField a "size"
  let mimeType ← getField a "mimeType"
  let content ← getField a "content"
  pure (JSVal.obj [("filename", filename), ("author", authorName), ("created", created),
    ("size", size), ("mimeType", mimeType), ("content", content)])

/-- The mapping applied to each comment:
`(c) => ({author: c.author.displayName, body, created})`. -/
def projectComment (c : JSVal) : Except String JSVal := do
  let author ← getField c "author"
  let authorName ← getField author "displayName"
  let body ← getField c "body"
  let created ← getField c "created"
  pure (JSVal.obj [("author", authorName), ("body", body), ("created", created)])

/-- The object built from a `get_jira_issue` remote body (lines 115-139),
following the source's field-access order; any unguarded access of a missing
nested object surfaces as an error (a thrown TypeError). -/
def projectIssue (issue : JSVal) : Except String JSVal := do
  let key ← getField issue "key"
  let fields ← getField issue "fields"
  let summary ← getField fields "summary"
  let description ← getField fields "description"
  let status ← getField fields "status"
  let statusName ← getField status "name"
  let assignee ← getField fields "assignee"
  let assigneeName ← getFieldOpt assignee "displayName"
  let priority ← getField fields "priority"
  let priorityName ← getField priority "name"
  let issuetype ← getField fields "issuetype"
  let issueTypeName ← getField issuetype "name"
  let created ← getField fields "created"
  let updated ← getField fields "updated"
  let labels ← getField fields "labels"
  let attachment ← getField fields "attachment"
  let attachmentsMapped ← jsOptChainMap attachment projectAttachment
  let comment ← getField fields "comment"
  let commentsField ← getFieldOpt comment "comments"
  let commentsMapped ← jsOptChainMap commentsField projectComment
  pure (JSVal.obj [("key", key), ("summary", summary), ("description", description),
    ("status", statusName), ("assignee", jsOr assigneeName (JSVal.str "Unassigned")),
    ("priority", priorityName), ("issueType", issueTypeName), ("created", created),
    ("updated", updated), ("labels", labels),
    ("attachments", jsOr attachmentsMapped (JSVal.arr [])),
    ("comments", jsOr commentsMapped (JSVal.arr []))])

/-! ### The `get_jira_issues` projection (lines 145-203) -/

/-- The effective JQL (lines 147-149): `customJql ? ... AND ... : ...`,
selected by JS truthiness, so an empty string selects the plain branch. -/
def effectiveJql (projectKey : String) (customJql : Option String) : String :=
  match customJql with
  | some s =>
    if s = "" then "project = " ++ projectKey
    else "project = " ++ projectKey ++ " AND " ++ s
  | none => "project = " ++ projectKey

/-- The mapping applied to each subtask:
`(st) => ({key, summary: st.fields.summary, status: st.fields.status.name})`. -/
def projectSubtask (st : JSVal) : Except String JSVal := do
  let key ← getField st "key"
  let stFields ← getField st "fields"
  let summary ← getField stFields "summary"
  let status ← getField stFields "status"
  let statusName ← getField status "name"
  pure (JSVal.obj [("key", key), ("summary", summary), ("status", statusName)])

/-- The object built from one issue of a search response (lines 180-199). -/
def projectSearchIssue (issue : JSVal) : Except String JSVal := do
  let key ← getField issue "key"
  let id ← getField issue "id"
  let fields ← getField issue "fields"
  let summary ← getField fields "summary"
  let description ← getField fields "description"
  let status ← getField fields "status"
  let statusName ← getField status "name"
  let assignee ← getField fields "assignee"
  let assigneeName ← getFieldOpt assignee "displayName"
  let reporter ← getField fields "reporter"
  let reporterName ← getFieldOpt reporter "displayName"
  let priority ← getField fields "priority"
  let priorityName ← getFieldOpt priority "name"
  let issuetype ← getField fields "issuetype"
  let issueTypeName ← getField issuetype "name"
  let created ← getField fields "created"
  let updated ← getField fields "updated"
  let duedate ← getField fields "duedate"
  let labels ← getField fields "labels"
  let subtasksField ← getField fields "subtasks"
  let subtasksMapped ← jsOptChainMap subtasksField projectSubtask
  pure (JSVal.obj [("key", key), ("id", id), ("summary", summary),
    ("description", description), ("status", statusName),
    ("assignee", jsOr assigneeName (JSVal.str "Unassigned")),
    ("reporter", jsOr reporterName (JSVal.str "Unknown")),
    ("priority", jsOr priorityName (JSVal.str "None")),
    ("issueType", issueTypeName), ("created", created), ("updated", updated),
    ("duedate", duedate), ("labels", labels),
    ("subtasks", jsOr subtasksMapped (JSVal.arr []))])

/-- The object built from a whole search response body (lines 176-200);
`data.issues.map(...)` is unguarded. -/
def projectSearchBody (data : JSVal) : Except String JSVal := do
  let total ← getField data "total"
  let startAt ← getField data "startAt"
  let maxResults ← getField data "maxResults"
  let issues ← getField data "issues"
  let issuesMapped ← jsMapArray issues projectSearchIssue
  pure (JSVal.obj [("total", total), ("startAt", startAt), ("maxResults", maxResults),
    ("issues", issuesMapped)])

/-! ### The two handlers and the dispatcher (lines 84-218) -/

/-- The request URL built by the `get_jira_issue` branch (line 90). -/
def issueUrl (cfg : JiraConfig) (args : ToolArgs) : String :=
  cfg.host ++ "/rest/api/" ++ cfg.apiVersion ++ "/issue/" ++ jsArgString args.issueKey

/-- The request URL built by the `get_jira_issues` branch (line 151):
the whole effective JQL is passed through `encodeURIComponent`. -/
def searchUrl (cfg : JiraConfig) (args : ToolArgs) : String :=
  cfg.host ++ "/rest/api/" ++ cfg.apiVersion ++ "/search?jql=" ++
    encodeURIComponent (effectiveJql (jsArgString args.projectKey) args.jql)

/-- The `get_jira_issue` branch of the dispatcher (lines 88-143): fetch,
ok-check, project, serialize. Every thrown failure is an `error`. -/
def getJiraIssue (cfg : JiraConfig) (world : World) (args : ToolArgs) :
    Except String Envelope :=
  match world (issueUrl cfg args) with
  | .networkError msg => .error msg
  | .success response =>
    if ¬responseOk response then .error (httpErrorMsg response)
    else
      match projectIssue response.body with
      | .error e => .error e
      | .ok projected => .ok ⟨[⟨"text", jsonStringify2 projected⟩], none⟩

/-- The `get_jira_issues` branch of the dispatcher (lines 145-204). -/
def getJiraIssues (cfg : JiraConfig) (world : World) (args : ToolArgs) :
    Except String Envelope :=
  match world (searchUrl cfg args) with
  | .networkError msg => .error msg
  | .success response =>
    if ¬responseOk response then .error (httpErrorMsg response)
    else
      match projectSearchBody response.body with
      | .error e => .error e
      | .ok projected => .ok ⟨[⟨"text", jsonStringify2 projected⟩], none⟩

/-- The try-block of the `CallToolRequestSchema` handler: route by name,
with an unknown name throwing `Unknown tool: (name)` (line 206). -/
def handleCallTool (cfg : JiraConfig) (world : World) (name : String) (args : ToolArgs) :
    Except String Envelope :=
  if name = "get_jira_issue" then getJiraIssue cfg world args
  else if name = "get_jira_issues" then getJiraIssues cfg world args
  else .error ("Unknown tool: " ++ name)

/-- The whole `CallToolRequestSchema` handler (lines 84-218): the catch
block converts any thrown failure into the uniform error envelope, so the
dispatcher is total. -/
def callTool (cfg : JiraConfig) (world : World) (name : String) (args : ToolArgs) :
    Envelope :=
  match handleCallTool cfg world name args with
  | .ok envelope => envelope
  | .error msg => ⟨[⟨"text", "Error: " ++ msg⟩], some true⟩


/-! ### Helper lemmas and sample values -/

theorem exceptBind_ok {ε α β : Type} (x : Except ε α) (f : α → Except ε β) (b : β) :
    x >>= f = Except.ok b ↔ ∃ a, x = Except.ok a ∧ f a = Except.ok b := by
  cases x with
  | error e => simp [Bind.bind, Except.bind]
  | ok a => simp [Bind.bind, Except.bind]

theorem exceptPure_ok {ε α : Type} (a b : α) :
    (pure a : Except ε α) = Except.ok b ↔ a = b := by
  simp [pure, Except.pure]

def sampleConfig : JiraConfig := ⟨"https://jira.example.com", "token", "2"⟩

def sampleArgs : ToolArgs := ⟨some "PROJ-1", some "PP", none⟩

def sampleWorld404 : World := fun _ => .success ⟨404, "Not Found", .null⟩

theorem getJiraIssue_ok_shape (cfg : JiraConfig) (world : World) (args : ToolArgs)
    (e : Envelope) (h : getJiraIssue cfg world args = .ok e) :
    e.isError = none ∧ ∃ t, e.content = [⟨"text", t⟩] := by
  unfold getJiraIssue at h
  split at h
  · simp at h
  · split at h
    · simp at h
    · split at h
      · simp at h
      · injection h with h
        subst h
        exact ⟨rfl, _, rfl⟩

theorem getJiraIssues_ok_shape (cfg : JiraConfig) (world : World) (args : ToolArgs)
    (e : Envelope) (h : getJiraIssues cfg world args = .ok e) :
    e.isError = none ∧ ∃ t, e.content = [⟨"text", t⟩] := by
  unfold getJiraIssues at h
  split at h
  · simp at h
  · split at h
    · simp at h
    · split at h
      · simp at h
      · injection h with h
        subst h
        exact ⟨rfl, _, rfl⟩

theorem handleCallTool_ok_shape (cfg : JiraConfig) (world : World) (name : String)
    (args : ToolArgs) (e : Envelope) (h : handleCallTool cfg world name args = .ok e) :
    e.isError = none ∧ ∃ t, e.content = [⟨"text", t⟩] := by
  unfold handleCallTool at h
  split at h
  · exact getJiraIssue_ok_shape _ _ _ _ h
  · split at h
    · exact getJiraIssues_ok_shape _ _ _ _ h
    · simp at h

/-- C1: every tool invocation returns an envelope of the uniform shape
(a single text content item); `isError` is `some true` exactly when the
handler raised a failure and absent (`none`) exactly on success, and since
`callTool` is a total function into `Envelope`, no failure escapes. -/
theorem c1_callTool_uniform_envelope (cfg : JiraConfig) (world : World)
    (name : String) (args : ToolArgs) :
    (∃ t, (callTool cfg world name args).content = [⟨"text", t⟩]) ∧
    ((callTool cfg world name args).isError = some true ↔
      ∃ msg, handleCallTool cfg world name args = .error msg) ∧
    ((callTool cfg world name args).isError = none ↔
      ∃ e, handleCallTool cfg world name args = .ok e) := by
  unfold callTool
  cases h : handleCallTool cfg world name args with
  | ok e =>
    obtain ⟨h1, t, h2⟩ := handleCallTool_ok_shape cfg world name args e h
    exact ⟨⟨t, h2⟩, by simp [h1], by simp [h1]⟩
  | error msg =>
    exact ⟨⟨"Error: " ++ msg, rfl⟩, by simp, by simp⟩

/-- remote body of the C3 example -/
def c3Body : JSVal := .obj [("key", .str "PROJ-1"),
  ("fields", .obj [("summary", .str "S"), ("status", .obj [("name", .str "Open")]),
    ("priority", .obj [("name", .str "High")]), ("issuetype", .obj [("name", .str "Bug")]),
    ("assignee", .null), ("labels", .arr [.str "a", .str "b"])])]

/-- projection of `c3Body` -/
def c3Result : JSVal := .obj [("key", .str "PROJ-1"), ("summary", .str "S"),
  ("description", .undefined), ("status", .str "Open"), ("assignee", .str "Unassigned"),
  ("priority", .str "High"), ("issueType", .str "Bug"), ("created", .undefined),
  ("updated", .undefined), ("labels", .arr [.str "a", .str "b"]), ("attachments", .arr []),
  ("comments", .arr [])]

/-- C3: at the given remote response the projection has assignee
"Unassigned", labels unchanged, and empty attachments and comments. -/
theorem c3_projection_example :
    projectIssue c3Body = .ok c3Result ∧
    lookupField c3Result "assignee" = some (.str "Unassigned") ∧
    lookupField c3Result "labels" = some (.arr [.str "a", .str "b"]) ∧
    lookupField c3Result "attachments" = some (.arr []) ∧
    lookupField c3Result "comments" = some (.arr []) :=
  ⟨rfl, rfl, rfl, rfl, rfl⟩

/-- remote body with `priority` absent -/
def c2PriorityAbsentBody : JSVal := .obj [("key", .str "PROJ-2"),
  ("fields", .obj [("summary", .str "S"), ("status", .obj [("name", .str "Open")]),
    ("issuetype", .obj [("name", .str "Bug")]), ("assignee", .null), ("labels", .arr [])])]

/-- C2 counterexample: for a `get_jira_issue` response whose `priority` is
absent, the projection is not defaulted but fails with a TypeError, and the
whole invocation returns an error envelope instead of a structurally
complete projection. -/
theorem c2_counterexample :
    projectIssue c2PriorityAbsentBody = .error (typeErrorMsg "undefined" "name") ∧
    (callTool sampleConfig (fun _ => .success ⟨200, "OK", c2PriorityAbsentBody⟩)
      "get_jira_issue" sampleArgs).isError = some true :=
  ⟨rfl, rfl⟩

/-- C2 (amended): in `get_jira_issue`, assignee, attachments and comments
are defaulted when absent; in `get_jira_issues`, assignee, reporter,
priority and subtasks are defaulted when absent; labels is copied through
without a default (an absent labels propagates as undefined). -/
theorem c2_amended_defaults
    (k i s d st pr it cr up dd : String) (labels : JSVal) :
    (∃ v, projectIssue (JSVal.obj [("key", .str k),
        ("fields", .obj [("summary", .str s), ("description", .str d),
          ("status", .obj [("name", .str st)]), ("priority", .obj [("name", .str pr)]),
          ("issuetype", .obj [("name", .str it)]), ("created", .str cr),
          ("updated", .str up), ("labels", labels)])]) = .ok v ∧
      lookupField v "assignee" = some (.str "Unassigned") ∧
      lookupField v "attachments" = some (.arr []) ∧
      lookupField v "comments" = some (.arr []) ∧
      lookupField v "labels" = some labels) ∧
    (∃ v, projectSearchIssue (JSVal.obj [("key", .str k), ("id", .str i),
        ("fields", .obj [("summary", .str s), ("description", .str d),
          ("status", .obj [("name", .str st)]),
          ("issuetype", .obj [("name", .str it)]), ("created", .str cr),
          ("updated", .str up), ("duedate", .str dd), ("labels", labels)])]) = .ok v ∧
      lookupField v "assignee" = some (.str "Unassigned") ∧
      lookupField v "reporter" = some (.str "Unknown") ∧
      lookupField v "priority" = some (.str "None") ∧
      lookupField v "subtasks" = some (.arr []) ∧
      lookupField v "labels" = some labels) ∧
    (∃ v, projectIssue (JSVal.obj [("key", .str k),
        ("fields", .obj [("summary", .str s),
          ("status", .obj [("name", .str st)]), ("priority", .obj [("name", .str pr)]),
          ("issuetype", .obj [("name", .str it)])])]) = .ok v ∧
      lookupField v "labels" = some .undefined) :=
  ⟨⟨_, rfl, rfl, rfl, rfl, rfl⟩, ⟨_, rfl, rfl, rfl, rfl, rfl, rfl⟩, ⟨_, rfl, rfl⟩⟩

/-- C4: the effective JQL appends ` AND (jql)` exactly when a nonempty jql
is given, the search URL percent-encodes the entire effective JQL, and the
concrete encoded query decodes back to the exact JQL string. -/
theorem c4_effective_jql_and_url :
    (∀ (cfg : JiraConfig) (pk q : String), q ≠ "" →
      effectiveJql pk (some q) = "project = " ++ pk ++ " AND " ++ q ∧
      searchUrl cfg ⟨none, some pk, some q⟩ =
        cfg.host ++ "/rest/api/" ++ cfg.apiVersion ++ "/search?jql=" ++
          encodeURIComponent ("project = " ++ pk ++ " AND " ++ q)) ∧
    (∀ (cfg : JiraConfig) (pk : String),
      effectiveJql pk none = "project = " ++ pk ∧
      searchUrl cfg ⟨none, some pk, none⟩ =
        cfg.host ++ "/rest/api/" ++ cfg.apiVersion ++ "/search?jql=" ++
          encodeURIComponent ("project = " ++ pk)) ∧
    decodeURIComponent (encodeURIComponent "project = PP AND status = Open") =
      some "project = PP AND status = Open" := by
  refine ⟨?_, ?_, by decide⟩
  · intro cfg pk q hq
    constructor
    · simp [effectiveJql, hq]
    · simp [searchUrl, effectiveJql, jsArgString, hq]
  · intro cfg pk
    exact ⟨rfl, rfl⟩

/-- C4 witness: the theorem applied at `searchIssues("PP", "status = Open")`. -/
theorem c4_witness :
    ("status = Open" : String) ≠ "" ∧
    (effectiveJql "PP" (some "status = Open") = "project = PP AND status = Open" ∧
     searchUrl sampleConfig ⟨none, some "PP", some "status = Open"⟩ =
       sampleConfig.host ++ "/rest/api/" ++ sampleConfig.apiVersion ++ "/search?jql=" ++
         encodeURIComponent ("project = PP AND status = Open")) :=
  ⟨by decide, c4_effective_jql_and_url.1 sampleConfig "PP" "status = Open" (by decide)⟩

/-- C5: a response with status outside 200-299 makes either fetcher produce
the error envelope with text `Error: HTTP (status): (statusText)`. -/
theorem c5_http_error_envelope (cfg : JiraConfig) (world : World) (args : ToolArgs)
    (resp : HttpResponse) (hstatus : ¬(200 ≤ resp.status ∧ resp.status ≤ 299)) :
    (world (issueUrl cfg args) = .success resp →
      callTool cfg world "get_jira_issue" args =
        ⟨[⟨"text", "Error: " ++ ("HTTP " ++ toString resp.status ++ ": " ++ resp.statusText)⟩],
          some true⟩) ∧
    (world (searchUrl cfg args) = .success resp →
      callTool cfg world "get_jira_issues" args =
        ⟨[⟨"text", "Error: " ++ ("HTTP " ++ toString resp.status ++ ": " ++ resp.statusText)⟩],
          some true⟩) := by
  have hok : responseOk resp = false := by
    simp only [responseOk, decide_eq_false_iff_not]
    omega
  constructor
  · intro hw
    simp [callTool, handleCallTool, getJiraIssue, hw, hok, httpErrorMsg]
  · intro hw
    simp [callTool, handleCallTool, getJiraIssues, hw, hok, httpErrorMsg]

/-- C5 witness: an HTTP 404 with status text "Not Found" yields the envelope
text `Error: HTTP 404: Not Found` with `isError` true. -/
theorem c5_witness :
    callTool sampleConfig sampleWorld404 "get_jira_issue" sampleArgs =
      ⟨[⟨"text", "Error: HTTP 404: Not Found"⟩], some true⟩ ∧
    callTool sampleConfig sampleWorld404 "get_jira_issues" sampleArgs =
      ⟨[⟨"text", "Error: HTTP 404: Not Found"⟩], some true⟩ := by
  have h := c5_http_error_envelope sampleConfig sampleWorld404 sampleArgs
    ⟨404, "Not Found", .null⟩ (by decide)
  exact ⟨h.1 rfl, h.2 rfl⟩

/-- C6: the registered tool names are exactly the two names the dispatcher
routes; any other name yields the `Error: Unknown tool: (name)` envelope,
while each registered name is actually routed to a handler (its result
depends on the remote world). -/
theorem c6_registry_matches_dispatcher :
    listTools.map ToolDescriptor.name = ["get_jira_issue", "get_jira_issues"] ∧
    (∀ name, name ∉ listTools.map ToolDescriptor.name →
      ∀ (cfg : JiraConfig) (world : World) (args : ToolArgs),
        callTool cfg world name args =
          ⟨[⟨"text", "Error: " ++ ("Unknown tool: " ++ name)⟩], some true⟩) ∧
    (∀ name, name ∈ listTools.map ToolDescriptor.name →
      ∀ (cfg : JiraConfig) (args : ToolArgs),
        ∃ w1 w2 : World, callTool cfg w1 name args ≠ callTool cfg w2 name args) := by
  refine ⟨rfl, ?_, ?_⟩
  · intro name hname cfg world args
    simp only [listTools, List.map_cons, List.map_nil, List.mem_cons, List.not_mem_nil,
      or_false, not_or] at hname
    obtain ⟨h1, h2⟩ := hname
    simp [callTool, handleCallTool, h1, h2]
  · intro name hname cfg args
    simp only [listTools, List.map_cons, List.map_nil, List.mem_cons, List.not_mem_nil,
      or_false] at hname
    rcases hname with h | h <;> subst h
    · refine ⟨fun _ => .networkError "a", fun _ => .networkError "b", ?_⟩
      have e1 : callTool cfg (fun _ => .networkError "a") "get_jira_issue" args =
          ⟨[⟨"text", "Error: a"⟩], some true⟩ := rfl
      have e2 : callTool cfg (fun _ => .networkError "b") "get_jira_issue" args =
          ⟨[⟨"text", "Error: b"⟩], some true⟩ := rfl
      rw [e1, e2]
      decide
    · refine ⟨fun _ => .networkError "a", fun _ => .networkError "b", ?_⟩
      have e1 : callTool cfg (fun _ => .networkError "a") "get_jira_issues" args =
          ⟨[⟨"text", "Error: a"⟩], some true⟩ := rfl
      have e2 : callTool cfg (fun _ => .networkError "b") "get_jira_issues" args =
          ⟨[⟨"text", "Error: b"⟩], some true⟩ := rfl
      rw [e1, e2]
      decide

/-- C6 witness: the registry names, and the unknown-tool envelope at the
concrete name "frobnicate". -/
theorem c6_witness :
    listTools.map ToolDescriptor.name = ["get_jira_issue", "get_jira_issues"] ∧
    callTool sampleConfig sampleWorld404 "frobnicate" sampleArgs =
      ⟨[⟨"text", "Error: " ++ ("Unknown tool: " ++ "frobnicate")⟩], some true⟩ :=
  ⟨c6_registry_matches_dispatcher.1,
   c6_registry_matches_dispatcher.2.1 "frobnicate" (by decide)
     sampleConfig sampleWorld404 sampleArgs⟩

/-- C7: no transport for unset or empty input; each of the six documented
schemes yields the matching transport family; and in general a lowercased
protocol starting with `socks` yields the SOCKS transport, one starting
with `http` the HTTP transport, and any other protocol an error naming it. -/
theorem c7_createProxyAgent_schemes :
    createProxyAgent none = .ok none ∧
    createProxyAgent (some "") = .ok none ∧
    (createProxyAgent (some "socks://h:1") = .ok (some (.socksProxyAgent "socks://h:1")) ∧
     createProxyAgent (some "socks4://h:1") = .ok (some (.socksProxyAgent "socks4://h:1")) ∧
     createProxyAgent (some "socks5://h:1") = .ok (some (.socksProxyAgent "socks5://h:1")) ∧
     createProxyAgent (some "socks5h://h:1") = .ok (some (.socksProxyAgent "socks5h://h:1")) ∧
     createProxyAgent (some "http://h:1") = .ok (some (.httpsProxyAgent "http://h:1")) ∧
     createProxyAgent (some "https://h:1") = .ok (some (.httpsProxyAgent "https://h:1"))) ∧
    (∀ u p, urlProtocol u = some p →
      (strStartsWith p "socks" = true →
        createProxyAgent (some u) = .ok (some (.socksProxyAgent u))) ∧
      (strStartsWith p "socks" = false → strStartsWith p "http" = true →
        createProxyAgent (some u) = .ok (some (.httpsProxyAgent u))) ∧
      (strStartsWith p "socks" = false → strStartsWith p "http" = false →
        createProxyAgent (some u) = .error ("Unsupported proxy protocol: " ++ p))) := by
  refine ⟨rfl, rfl, ⟨rfl, rfl, rfl, rfl, rfl, rfl⟩, ?_⟩
  intro u p hp
  have hu : u ≠ "" := by
    intro h
    subst h
    have h0 : urlProtocol "" = none := rfl
    rw [h0] at hp
    exact Option.noConfusion hp
  refine ⟨?_, ?_, ?_⟩
  · intro hs
    simp [createProxyAgent, hu, hp, hs]
  · intro hs hh
    simp [createProxyAgent, hu, hp, hs, hh]
  · intro hs hh
    simp [createProxyAgent, hu, hp, hs, hh]

/-- C7 witness: the general branch of the theorem applied at the concrete
URL `socks5h://127.0.0.1:1080`. -/
theorem c7_witness :
    urlProtocol "socks5h://127.0.0.1:1080" = some "socks5h:" ∧
    strStartsWith "socks5h:" "socks" = true ∧
    createProxyAgent (some "socks5h://127.0.0.1:1080") =
      .ok (some (.socksProxyAgent "socks5h://127.0.0.1:1080")) :=
  ⟨by decide, by decide,
   (c7_createProxyAgent_schemes.2.2.2 "socks5h://127.0.0.1:1080" "socks5h:"
     (by decide)).1 (by decide)⟩

/-- C8: an issue of a search response whose `subtasks` field is absent
projects to an issue whose `subtasks` is present and equal to the empty
array. -/
theorem c8_missing_subtasks_empty (issue fields v : JSVal)
    (hf : getField issue "fields" = .ok fields)
    (hsub : getField fields "subtasks" = .ok .undefined)
    (hp : projectSearchIssue issue = .ok v) :
    lookupField v "subtasks" = some (.arr []) := by
  unfold projectSearchIssue at hp
  simp only [exceptBind_ok, exceptPure_ok] at hp
  obtain ⟨key, hkey, id, hid, fields2, hfields2, summary, hsummary, description, hdesc,
    status, hstatus, statusName, hstatusName, assignee, hassignee, assigneeName,
    hassigneeName, reporter, hreporter, reporterName, hreporterName, priority, hpriority,
    priorityName, hpriorityName, issuetype, hissuetype, issueTypeName, hitn,
    created, hcreated, updated, hupdated, duedate, hduedate, labels, hlabels,
    stf, hstf, stm, hstm, hv⟩ := hp
  rw [hf] at hfields2
  injection hfields2 with hfe
  subst hfe
  rw [hsub] at hstf
  injection hstf with hst
  subst hst
  simp only [jsOptChainMap] at hstm
  injection hstm with hstm2
  subst hstm2
  subst hv
  rfl

/-- search issue with no `subtasks` field -/
def c8Issue : JSVal := .obj [("key", .str "PP-1"), ("id", .str "1"),
  ("fields", .obj [("summary", .str "S"), ("status", .obj [("name", .str "Open")]),
    ("issuetype", .obj [("name", .str "Task")])])]

/-- the `fields` object of `c8Issue` -/
def c8Fields : JSVal := .obj [("summary", .str "S"), ("status", .obj [("name", .str "Open")]),
  ("issuetype", .obj [("name", .str "Task")])]

/-- projection of `c8Issue` -/
def c8Result : JSVal := .obj [("key", .str "PP-1"), ("id", .str "1"), ("summary", .str "S"),
  ("description", .undefined), ("status", .str "Open"), ("assignee", .str "Unassigned"),
  ("reporter", .str "Unknown"), ("priority", .str "None"), ("issueType", .str "Task"),
  ("created", .undefined), ("updated", .undefined), ("duedate", .undefined), ("labels", .undefined),
  ("subtasks", .arr [])]

/-- C8 witness: the theorem applied at a concrete subtask-less issue. -/
theorem c8_witness :
    getField c8Issue "fields" = .ok c8Fields ∧
    getField c8Fields "subtasks" = .ok .undefined ∧
    projectSearchIssue c8Issue = .ok c8Result ∧
    lookupField c8Result "subtasks" = some (.arr []) :=
  ⟨rfl, rfl, rfl, c8_missing_subtasks_empty c8Issue c8Fields c8Result rfl rfl rfl⟩

/-- C9: the `get_jira_issue` result is a deterministic function of the
remote response: two invocations receiving identical responses (in
particular byte-identical JSON bodies) produce identical envelopes, hence
byte-identical serialized projection texts. -/
theorem c9_projection_deterministic (cfg : JiraConfig) (args : ToolArgs)
    (w1 w2 : World) (r1 r2 : HttpResponse)
    (h1 : w1 (issueUrl cfg args) = .success r1)
    (h2 : w2 (issueUrl cfg args) = .success r2)
    (hstatus : r1.status = r2.status) (hstatusText : r1.statusText = r2.statusText)
    (hbody : r1.body = r2.body) :
    getJiraIssue cfg w1 args = getJiraIssue cfg w2 args := by
  have hr : r1 = r2 := by
    cases r1
    cases r2
    simp_all
  subst hr
  unfold getJiraIssue
  rw [h1, h2]

/-- world returning a fixed successful response -/
def sampleWorldOk : World := fun _ => .success ⟨200, "OK", c3Body⟩

/-- C9 witness: the theorem applied to two invocations against the same
unchanged remote state. -/
theorem c9_witness :
    sampleWorldOk (issueUrl sampleConfig sampleArgs) = .success ⟨200, "OK", c3Body⟩ ∧
    getJiraIssue sampleConfig sampleWorldOk sampleArgs =
      getJiraIssue sampleConfig sampleWorldOk sampleArgs :=
  ⟨rfl, c9_projection_deterministic sampleConfig sampleArgs sampleWorldOk sampleWorldOk
    ⟨200, "OK", c3Body⟩ ⟨200, "OK", c3Body⟩ rfl rfl rfl rfl rfl⟩

/-- C10: a present-but-empty `jql` argument is treated as absent: the
effective query is `project = (projectKey)` with no ` AND ` clause, and the
request URL coincides with the one built for an absent `jql`. -/
theorem c10_empty_jql_treated_as_absent (pk : String) (cfg : JiraConfig) :
    effectiveJql pk (some "") = "project = " ++ pk ∧
    effectiveJql pk (some "") = effectiveJql pk none ∧
    searchUrl cfg ⟨none, some pk, some ""⟩ = searchUrl cfg ⟨none, some pk, none⟩ :=
  ⟨rfl, rfl, rfl⟩

end JiraQueryMcp
